import Mathlib

/-!
Verification of the document segmentation and retrieval pipeline of the
Hormozi AI repository.

The development shallowly embeds the Python sources:

* `scripts/data_processing.py` — `BookProcessor.create_chunks` (the Chunk
  Builder).  The NLTK tokenizers are external collaborators: the sentence
  stream produced by `sent_tokenize` is a `List String` parameter and the
  word counter `len(word_tokenize s)` is a parameter `wc : String → Nat`.
* `backend/app/services/rag_service.py` — `RAGService.search_knowledge_base`
  (the Retriever), `RAGService.generate_response`, `_prepare_context`,
  `_prepare_sources`, `_generate_fallback_response` (the Answer Composer).
  The ChromaDB collection and the OpenAI client are external collaborators,
  modelled as function parameters returning `Except`.  Float distances and
  similarities are modelled as rationals.
* `backend/app/main.py` — the `chat` endpoint, instrumented with an explicit
  trace of the external calls it issues.
-/

namespace Hormozi

/-- Python string slicing `s[:n]`: the first `n` code points of `s`. -/
def pyTake (s : String) (n : Nat) : String := ⟨s.data.take n⟩

/-- Python `s.strip()`: remove leading and trailing whitespace. -/
def pyStrip (s : String) : String :=
  ⟨((s.data.dropWhile Char.isWhitespace).reverse.dropWhile Char.isWhitespace).reverse⟩

/-- Python `s.lower()` as it acts on the ASCII book and chapter titles. -/
def pyLower (s : String) : String := ⟨s.data.map Char.toLower⟩

/-- Python `s.replace(" ", "_")`: the pattern is a single character, so the
replacement is a character-wise map. -/
def pyReplaceSpace (s : String) : String :=
  ⟨s.data.map (fun c => if c = ' ' then '_' else c)⟩

/-- The `TextChunk` dataclass of `scripts/data_processing.py`. -/
structure TextChunk where
  id : String
  content : String
  book_title : String
  chapter : String
  page_number : Nat
  word_count : Nat
  char_count : Nat
  chunk_index : Nat
  source_file : String
deriving DecidableEq, Repr

/-- The id f-string of `create_chunks`:
`f"{book_title.lower().replace(' ', '_')}_{chapter.lower().replace(' ', '_')}_{chunk_index}"`. -/
def chunkId (book_title chapter : String) (chunk_index : Nat) : String :=
  pyReplaceSpace (pyLower book_title) ++ "_" ++
    pyReplaceSpace (pyLower chapter) ++ "_" ++ Nat.repr chunk_index

/-- The mutable loop state of `create_chunks`. -/
structure ChunkState where
  current_chunk : String
  current_word_count : Nat
  chunk_index : Nat
  chunks : List TextChunk
deriving Repr

/-- The `TextChunk(...)` constructor call of `create_chunks`, applied to the
current loop state (both occurrences in the source build this same record:
the content is the stripped accumulator, the char count is the length of the
unstripped accumulator). -/
def emitChunk (book_title chapter : String) (page_number : Nat) (source_file : String)
    (st : ChunkState) : TextChunk :=
  { id := chunkId book_title chapter st.chunk_index
    content := pyStrip st.current_chunk
    book_title := book_title
    chapter := chapter
    page_number := page_number
    word_count := st.current_word_count
    char_count := st.current_chunk.length
    chunk_index := st.chunk_index
    source_file := source_file }

/-- One iteration of the `for sentence in sentences` loop of `create_chunks`.
`sentences` is the whole tokenized list: the source computes the overlap as
`sentences[max(0, len(sentences) - 3):len(sentences)]`, i.e. from the whole
list, which `List.drop` with truncated subtraction reproduces exactly. -/
def chunkStep (wc : String → Nat) (chunk_size : Nat) (book_title chapter : String)
    (page_number : Nat) (source_file : String) (sentences : List String)
    (st : ChunkState) (sentence : String) : ChunkState :=
  let sentence_words := wc sentence
  if chunk_size < st.current_word_count + sentence_words ∧ st.current_chunk ≠ "" then
    let chunk := emitChunk book_title chapter page_number source_file st
    let overlap_sentences := sentences.drop (sentences.length - 3)
    { current_chunk := String.intercalate " " overlap_sentences ++ " " ++ sentence
      current_word_count := (overlap_sentences.map wc).sum + sentence_words
      chunk_index := st.chunk_index + 1
      chunks := st.chunks ++ [chunk] }
  else
    { st with
      current_chunk := st.current_chunk ++ " " ++ sentence
      current_word_count := st.current_word_count + sentence_words }

/-- `BookProcessor.create_chunks`: fold the loop body over the sentence
stream, then emit the final chunk when the stripped accumulator is
non-empty. -/
def create_chunks (wc : String → Nat) (chunk_size : Nat) (book_title chapter : String)
    (page_number : Nat) (source_file : String) (sentences : List String) : List TextChunk :=
  let st := sentences.foldl
    (chunkStep wc chunk_size book_title chapter page_number source_file sentences)
    ⟨"", 0, 0, []⟩
  if pyStrip st.current_chunk ≠ "" then
    st.chunks ++ [emitChunk book_title chapter page_number source_file st]
  else
    st.chunks

/-! Basic string facts used by the chunk invariants. -/

/-- Appending strings concatenates their character data. -/
lemma data_append (a b : String) : (a ++ b).data = a.data ++ b.data := by
  cases a; cases b; rfl

/-- A string of the form `a ++ " " ++ b` is never empty. -/
lemma append_space_ne_empty (a b : String) : a ++ " " ++ b ≠ "" := by
  intro h
  have hd := congrArg (fun s : String => s.data.length) h
  simp [data_append] at hd

/-- Stripping never lengthens a string. -/
lemma pyStrip_length_le (s : String) : (pyStrip s).length ≤ s.length := by
  show (((s.data.dropWhile Char.isWhitespace).reverse.dropWhile
      Char.isWhitespace).reverse).length ≤ s.data.length
  rw [List.length_reverse]
  calc ((s.data.dropWhile Char.isWhitespace).reverse.dropWhile Char.isWhitespace).length
      ≤ (s.data.dropWhile Char.isWhitespace).reverse.length :=
        (List.dropWhile_sublist Char.isWhitespace).length_le
    _ = (s.data.dropWhile Char.isWhitespace).length := List.length_reverse _
    _ ≤ s.data.length := (List.dropWhile_sublist Char.isWhitespace).length_le

/-! Fold invariants of the chunk builder. -/

/-- The chunks accumulated so far carry the indices `0, 1, …` in order: the
fold preserves `chunks.map chunk_index = range chunk_index`. -/
lemma foldl_chunkStep_indices (wc : String → Nat) (chunk_size : Nat)
    (book_title chapter : String) (page_number : Nat) (source_file : String)
    (sentences : List String) :
    ∀ (l : List String) (st : ChunkState),
      st.chunks.map TextChunk.chunk_index = List.range st.chunk_index →
      ((l.foldl (chunkStep wc chunk_size book_title chapter page_number source_file sentences)
          st).chunks.map TextChunk.chunk_index
        = List.range (l.foldl
            (chunkStep wc chunk_size book_title chapter page_number source_file sentences)
            st).chunk_index) := by
  intro l
  induction l with
  | nil => intro st h; exact h
  | cons s rest ih =>
    intro st h
    rw [List.foldl_cons]
    apply ih
    unfold chunkStep
    by_cases hc : chunk_size < st.current_word_count + wc s ∧ st.current_chunk ≠ ""
    · rw [if_pos hc]
      show (st.chunks ++ [emitChunk book_title chapter page_number source_file st]).map
          TextChunk.chunk_index = List.range (st.chunk_index + 1)
      rw [List.map_append, h, Nat.add_one, List.range_succ]
      rfl
    · rw [if_neg hc]
      exact h

/-- The fold preserves any predicate that holds of every accumulated chunk
and of every chunk emitted from a state satisfying the running invariants:
every chunk has the given provenance, a positive word count, and a char
count at least the length of its content; the accumulator, when non-empty,
has a positive word count. -/
lemma foldl_chunkStep_inv (wc : String → Nat) (chunk_size : Nat)
    (book_title chapter : String) (page_number : Nat) (source_file : String)
    (sentences : List String) :
    ∀ (l : List String) (st : ChunkState),
      (∀ s ∈ l, 1 ≤ wc s) →
      (st.current_chunk ≠ "" → 1 ≤ st.current_word_count) →
      (∀ c ∈ st.chunks, c.book_title = book_title ∧ c.chapter = chapter ∧
        1 ≤ c.word_count ∧ c.content.length ≤ c.char_count) →
      (((l.foldl (chunkStep wc chunk_size book_title chapter page_number source_file sentences)
            st).current_chunk ≠ "" →
          1 ≤ (l.foldl
            (chunkStep wc chunk_size book_title chapter page_number source_file sentences)
            st).current_word_count)
        ∧ ∀ c ∈ (l.foldl
            (chunkStep wc chunk_size book_title chapter page_number source_file sentences)
            st).chunks, c.book_title = book_title ∧ c.chapter = chapter ∧
              1 ≤ c.word_count ∧ c.content.length ≤ c.char_count) := by
  intro l
  induction l with
  | nil => intro st _ h1 h2; exact ⟨h1, h2⟩
  | cons s rest ih =>
    intro st hl h1 h2
    rw [List.foldl_cons]
    have hs : 1 ≤ wc s := hl s (List.mem_cons_self s rest)
    have hrest : ∀ x ∈ rest, 1 ≤ wc x := fun x hx => hl x (List.mem_cons_of_mem s hx)
    unfold chunkStep
    by_cases hc : chunk_size < st.current_word_count + wc s ∧ st.current_chunk ≠ ""
    · rw [if_pos hc]
      refine ih _ hrest ?_ ?_
      · intro _
        exact hs.trans (Nat.le_add_left _ _)
      · intro c hc'
        rcases List.mem_append.mp hc' with hmem | hmem
        · exact h2 c hmem
        · rcases List.mem_singleton.mp hmem with rfl
          exact ⟨rfl, rfl, h1 hc.2, pyStrip_length_le _⟩
    · rw [if_neg hc]
      refine ih _ hrest ?_ ?_
      · intro _
        exact hs.trans (Nat.le_add_left _ _)
      · exact h2

/-- Every chunk accumulated by the fold carries the provenance strings of
the call. -/
lemma foldl_chunkStep_prov (wc : String → Nat) (chunk_size : Nat)
    (book_title chapter : String) (page_number : Nat) (source_file : String)
    (sentences : List String) :
    ∀ (l : List String) (st : ChunkState),
      (∀ c ∈ st.chunks, c.book_title = book_title ∧ c.chapter = chapter) →
      ∀ c ∈ (l.foldl
          (chunkStep wc chunk_size book_title chapter page_number source_file sentences)
          st).chunks, c.book_title = book_title ∧ c.chapter = chapter := by
  intro l
  induction l with
  | nil => intro st h; exact h
  | cons s rest ih =>
    intro st h
    rw [List.foldl_cons]
    unfold chunkStep
    by_cases hc : chunk_size < st.current_word_count + wc s ∧ st.current_chunk ≠ ""
    · rw [if_pos hc]
      refine ih _ ?_
      intro c hc'
      have hc'' : c ∈ st.chunks ++ [emitChunk book_title chapter page_number source_file st] :=
        hc'
      rcases List.mem_append.mp hc'' with hmem | hmem
      · exact h c hmem
      · rcases List.mem_singleton.mp hmem with rfl
        exact ⟨rfl, rfl⟩
    · rw [if_neg hc]
      exact ih _ h

/-! ## C7 -/

/-- C7: for every section's sentence sequence, the chunks emitted by
`create_chunks` carry `chunk_index` values `0 .. n-1` — gapless, strictly
increasing from 0, in emission order — and every chunk carries the
(book title, chapter) pair of the call, so the index sequence is scoped per
(documentTitle, sectionTitle) pair. -/
theorem create_chunks_sequence_indices (wc : String → Nat) (chunk_size : Nat)
    (book_title chapter : String) (page_number : Nat) (source_file : String)
    (sentences : List String) :
    ((create_chunks wc chunk_size book_title chapter page_number source_file
        sentences).map TextChunk.chunk_index
      = List.range (create_chunks wc chunk_size book_title chapter page_number source_file
        sentences).length)
    ∧ ∀ c ∈ create_chunks wc chunk_size book_title chapter page_number source_file sentences,
        c.book_title = book_title ∧ c.chapter = chapter := by
  unfold create_chunks
  set st := sentences.foldl
    (chunkStep wc chunk_size book_title chapter page_number source_file sentences)
    ⟨"", 0, 0, []⟩ with hst
  have hidx : st.chunks.map TextChunk.chunk_index = List.range st.chunk_index := by
    rw [hst]
    exact foldl_chunkStep_indices wc chunk_size book_title chapter page_number source_file
      sentences sentences ⟨"", 0, 0, []⟩ rfl
  have hlen : st.chunks.length = st.chunk_index := by
    have := congrArg List.length hidx
    simpa using this
  have hprov : ∀ c ∈ st.chunks, c.book_title = book_title ∧ c.chapter = chapter := by
    intro c hc
    exact foldl_chunkStep_prov wc chunk_size book_title chapter page_number source_file
      sentences sentences ⟨"", 0, 0, []⟩ (fun c hc => absurd hc (List.not_mem_nil c))
      c (hst ▸ hc)
  by_cases hfin : pyStrip st.current_chunk ≠ ""
  · rw [if_pos hfin]
    constructor
    · rw [List.map_append, hidx, List.length_append, hlen]
      show List.range st.chunk_index ++ [st.chunk_index] = List.range (st.chunk_index + 1)
      rw [Nat.add_one, List.range_succ]
    · intro c hc
      rcases List.mem_append.mp hc with hmem | hmem
      · exact hprov c hmem
      · rcases List.mem_singleton.mp hmem with rfl
        exact ⟨rfl, rfl⟩
  · rw [if_neg hfin]
    exact ⟨by rw [hidx, hlen], hprov⟩

/-! ## C3 -/

/-- C3 (amended): every emitted chunk has `word_count ≥ 1` (given that every
sentence has at least one word, which the NLTK tokenizers guarantee), and its
`char_count` is the length of the un-stripped accumulator text, hence at
least — not exactly — the length of its stripped `content`. -/
theorem create_chunks_word_and_char_counts (wc : String → Nat) (chunk_size : Nat)
    (book_title chapter : String) (page_number : Nat) (source_file : String)
    (sentences : List String) (hwc : ∀ s ∈ sentences, 1 ≤ wc s) :
    ∀ c ∈ create_chunks wc chunk_size book_title chapter page_number source_file sentences,
      1 ≤ c.word_count ∧ c.content.length ≤ c.char_count := by
  unfold create_chunks
  set st := sentences.foldl
    (chunkStep wc chunk_size book_title chapter page_number source_file sentences)
    ⟨"", 0, 0, []⟩ with hst
  have hinv := foldl_chunkStep_inv wc chunk_size book_title chapter page_number source_file
    sentences sentences ⟨"", 0, 0, []⟩ hwc (fun h => absurd rfl h)
    (fun c hc => absurd hc (List.not_mem_nil c))
  rw [← hst] at hinv
  by_cases hfin : pyStrip st.current_chunk ≠ ""
  · rw [if_pos hfin]
    intro c hc
    rcases List.mem_append.mp hc with hmem | hmem
    · exact ⟨(hinv.2 c hmem).2.2.1, (hinv.2 c hmem).2.2.2⟩
    · rcases List.mem_singleton.mp hmem with rfl
      refine ⟨hinv.1 ?_, pyStrip_length_le _⟩
      intro he
      exact hfin (by rw [he]; rfl)
  · rw [if_neg hfin]
    intro c hc
    exact ⟨(hinv.2 c hc).2.2.1, (hinv.2 c hc).2.2.2⟩

/-- C3 counterexample: on a concrete two-sentence input the first emitted
chunk has `char_count = 3` but `content = "a."` of length 2 — the char count
measures the accumulator before stripping, so `charCount == len(content)`
fails. -/
theorem create_chunks_charCount_counterexample :
    ¬ (∀ c ∈ create_chunks (fun _ => 5) 6 "B" "C" 1 "f" ["a.", "b."],
        c.char_count = c.content.length) := by decide

/-- Closed instance of the amended C3 theorem at the same concrete input. -/
theorem create_chunks_word_and_char_counts_witness :
    (∀ s ∈ ["a.", "b."], 1 ≤ (fun _ : String => 5) s)
    ∧ ∀ c ∈ create_chunks (fun _ => 5) 6 "B" "C" 1 "f" ["a.", "b."],
        1 ≤ c.word_count ∧ c.content.length ≤ c.char_count :=
  ⟨by decide,
    create_chunks_word_and_char_counts (fun _ => 5) 6 "B" "C" 1 "f" ["a.", "b."] (by decide)⟩

/-! ## C1 -/

/-- C1: evaluating `create_chunks` at a concrete five-sentence input (each
sentence counting 4 words, target size 8) shows that after the first chunk
`"One. Two."` is emitted, the next accumulator is seeded with the last three
sentences of the WHOLE input list — `"Three. Four. Five."`, which includes
sentences not yet consumed — and not with the last up-to-3 already-consumed
sentences, which would have produced `"One. Two. Three."` as the second
chunk. -/
theorem create_chunks_overlap_uses_input_tail :
    ((create_chunks (fun _ => 4) 8 "Book" "Ch" 1 "f"
        ["One.", "Two.", "Three.", "Four.", "Five."]).map TextChunk.content
      = ["One. Two.", "Three. Four. Five. Three.", "Three. Four. Five. Four.",
          "Three. Four. Five. Five."])
    ∧ ((create_chunks (fun _ => 4) 8 "Book" "Ch" 1 "f"
        ["One.", "Two.", "Three.", "Four.", "Five."]).map TextChunk.content
      ≠ ["One. Two.", "One. Two. Three.", "One. Two. Three. Four.",
          "Two. Three. Four. Five."]) := by decide

/-! ## C10 -/

/-- C10: chunk id derivation is not injective — two distinct
(book title, chapter title) pairs, one differing only in letter case and one
with an underscore where the other has a space, yield identical ids at the
same chunk index. -/
theorem chunkId_not_injective :
    ((("Book A", "Intro") ≠ (("book a", "Intro") : String × String))
      ∧ chunkId "Book A" "Intro" 0 = chunkId "book a" "Intro" 0)
    ∧ ((("A B", "C") ≠ (("A_B", "C") : String × String))
      ∧ chunkId "A B" "C" 0 = chunkId "A_B" "C" 0) := by decide

/-! Retriever: `RAGService.search_knowledge_base` of
`backend/app/services/rag_service.py`.  Distances and similarities are floats
in the source, modelled as rationals.  The ChromaDB metadata dictionaries
carry the keys `book_title`, `chapter`, `page_number`, each possibly
absent. -/

/-- A ChromaDB metadata dictionary; `none` fields are absent keys.  The
empty dictionary `{}` has all fields `none`. -/
structure Meta where
  book_title : Option String
  chapter : Option String
  page_number : Option Nat
deriving DecidableEq, Repr

/-- The Python `{}` used in `[{}] * len(documents)`. -/
def emptyMeta : Meta := ⟨none, none, none⟩

/-- The dictionary returned by `collection.query`: outer lists hold one inner
list per query text (the service always sends one query).  A field is
Python-falsy when it is `none` or the empty outer list. -/
structure QueryResponse where
  documents : Option (List (List String))
  metadatas : Option (List (List Meta))
  distances : Option (List (List Rat))
deriving Repr

/-- One entry of the list built by `search_knowledge_base`: the result
dictionary with content, raw metadata, derived similarity, and defaulted
provenance fields. -/
structure RetrievalResult where
  content : String
  metadata : Meta
  similarity : Rat
  book : String
  chapter : String
  page_number : Nat
deriving DecidableEq, Repr

/-- The ChromaDB collection as the service consumes it: a document count and
a `query` call that can raise (modelled with `Except`). -/
structure Collection where
  count : Nat
  query : String → Nat → Except String QueryResponse

/-- `RAGService.is_knowledge_base_available`: the collection exists and its
count is positive. -/
def is_kb_available : Option Collection → Bool
  | none => false
  | some col => decide (0 < col.count)

/-- The result dictionary appended by the processing loop of
`search_knowledge_base`: similarity is `1 - distance`, provenance fields
default to `"Unknown"` / `0` when absent from the metadata. -/
def mkResult (doc : String) (metadata : Meta) (distance : Rat) : RetrievalResult :=
  { content := doc
    metadata := metadata
    similarity := 1 - distance
    book := metadata.book_title.getD "Unknown"
    chapter := metadata.chapter.getD "Unknown"
    page_number := metadata.page_number.getD 0 }

/-- The `for doc, metadata, distance in zip(...)` loop of
`search_knowledge_base`: keep a result exactly when `similarity >=
min_similarity`, preserving order. -/
def processLoop (min_similarity : Rat) : List (String × Meta × Rat) → List RetrievalResult
  | [] => []
  | (doc, metadata, distance) :: rest =>
    if min_similarity ≤ 1 - distance then
      mkResult doc metadata distance :: processLoop min_similarity rest
    else
      processLoop min_similarity rest

/-- The body of `search_knowledge_base` after a successful store query: guard
on falsy/empty documents, default missing metadata to `[{}] * len(documents)`
and missing distances to `[0] * len(documents)`, then run the filter loop on
the zipped triples (Python `zip` truncates to the shortest list, as
`List.zip` does). -/
def searchBody (results : QueryResponse) (min_similarity : Rat) : List RetrievalResult :=
  match results.documents with
  | none => []
  | some [] => []
  | some (docs :: _) =>
    if docs.isEmpty then []
    else
      let metadatas := match results.metadatas with
        | none => List.replicate docs.length emptyMeta
        | some [] => List.replicate docs.length emptyMeta
        | some (ms :: _) => ms
      let distances := match results.distances with
        | none => List.replicate docs.length 0
        | some [] => List.replicate docs.length 0
        | some (ds :: _) => ds
      processLoop min_similarity (docs.zip (metadatas.zip distances))

/-- `RAGService.search_knowledge_base`: the guard `if not
self.is_knowledge_base_available(): return []` (collection present and count
positive) followed by the guarded store query — any raised error yields `[]`
— and the similarity filter. -/
def search_knowledge_base : Option Collection → String → Nat → Rat → List RetrievalResult
  | none, _, _, _ => []
  | some col, query, n_results, min_similarity =>
    if 0 < col.count then
      match col.query query n_results with
      | Except.error _ => []
      | Except.ok results => searchBody results min_similarity
    else []

/-- The filter loop is the order-preserving filter of the zipped candidate
list followed by result construction. -/
lemma processLoop_eq_filter (m : Rat) (l : List (String × Meta × Rat)) :
    processLoop m l
      = (l.filter (fun t => decide (m ≤ 1 - t.2.2))).map (fun t => mkResult t.1 t.2.1 t.2.2) := by
  induction l with
  | nil => rfl
  | cons t rest ih =>
    obtain ⟨doc, metadata, distance⟩ := t
    by_cases h : m ≤ 1 - distance
    · simp [processLoop, h, List.filter_cons, ih]
    · simp [processLoop, h, List.filter_cons, ih]

/-- On an aligned response with all three fields present, `searchBody` is the
filter loop over the zipped triples. -/
lemma searchBody_eq (m : Rat) (docs : List String) (drest : List (List String))
    (ms : List Meta) (mrest : List (List Meta)) (ds : List Rat) (dsrest : List (List Rat)) :
    searchBody ⟨some (docs :: drest), some (ms :: mrest), some (ds :: dsrest)⟩ m
      = processLoop m (docs.zip (ms.zip ds)) := by
  cases docs with
  | nil => rfl
  | cons d dtl => rfl

/-! ## C2 -/

/-- C2: for every query, requested count and similarity floor `m`, the list
returned by `search_knowledge_base` on an aligned store response is exactly
the subsequence of the store's candidates whose similarity `1 - distance` is
at least `m`: every survivor passes the floor, no qualifying candidate is
dropped, and the store's order is preserved without re-sorting. -/
theorem search_kb_filter (col : Collection) (q : String) (n : Nat) (m : Rat)
    (resp : QueryResponse) (docs : List String) (drest : List (List String))
    (ms : List Meta) (mrest : List (List Meta)) (ds : List Rat) (dsrest : List (List Rat))
    (hcount : 0 < col.count)
    (hq : col.query q n = Except.ok resp)
    (hdocs : resp.documents = some (docs :: drest))
    (hms : resp.metadatas = some (ms :: mrest))
    (hds : resp.distances = some (ds :: dsrest))
    (_hmslen : ms.length = docs.length)
    (_hdslen : ds.length = docs.length) :
    search_knowledge_base (some col) q n m
      = ((docs.zip (ms.zip ds)).filter (fun t => decide (m ≤ 1 - t.2.2))).map
          (fun t => mkResult t.1 t.2.1 t.2.2) := by
  have hresp : resp = ⟨some (docs :: drest), some (ms :: mrest), some (ds :: dsrest)⟩ := by
    cases resp
    simp_all
  subst hresp
  simp only [search_knowledge_base]
  rw [if_pos hcount, hq]
  show searchBody ⟨some (docs :: drest), some (ms :: mrest), some (ds :: dsrest)⟩ m = _
  rw [searchBody_eq, processLoop_eq_filter]

def metaC2 : Meta := { book_title := some "Offers", chapter := some "Ch1", page_number := some 12 }

def respC2 : QueryResponse :=
  { documents := some [["d1", "d2", "d3"]]
    metadatas := some [[metaC2, metaC2, metaC2]]
    distances := some [[1/10, 1/2, 9/10]] }

def colC2 : Collection := { count := 3, query := fun _ _ => Except.ok respC2 }

/-- Closed instance of C2 at a concrete collection and response. -/
theorem search_kb_filter_witness :
    search_knowledge_base (some colC2) "pricing strategies" 5 (3/5)
      = ((["d1", "d2", "d3"].zip ([metaC2, metaC2, metaC2].zip [1/10, 1/2, 9/10])).filter
          (fun t => decide ((3/5 : Rat) ≤ 1 - t.2.2))).map
          (fun t => mkResult t.1 t.2.1 t.2.2) :=
  search_kb_filter colC2 "pricing strategies" 5 (3/5) respC2 ["d1", "d2", "d3"] []
    [metaC2, metaC2, metaC2] [] [1/10, 1/2, 9/10] [] (by decide) rfl rfl rfl rfl rfl rfl

/-! ## C5 -/

/-- C5: when the collection is absent, when its count is zero, or when the
store query raises, `search_knowledge_base` returns the empty list instead
of propagating an error. -/
theorem search_kb_unavailable_or_error (collection : Option Collection) (q : String)
    (n : Nat) (m : Rat)
    (h : collection = none
      ∨ ∃ col, collection = some col
          ∧ (col.count = 0 ∨ ∃ e, col.query q n = Except.error e)) :
    search_knowledge_base collection q n m = [] := by
  rcases h with rfl | ⟨col, rfl, hcase⟩
  · rfl
  · rcases hcase with hzero | ⟨e, herr⟩
    · simp [search_knowledge_base, hzero]
    · simp only [search_knowledge_base]
      by_cases hpos : 0 < col.count
      · rw [if_pos hpos, herr]
      · rw [if_neg hpos]

/-- Closed instance of C5: retrieval against an absent collection. -/
theorem search_kb_unavailable_witness :
    search_knowledge_base none "any query" 5 (7/10) = [] :=
  search_kb_unavailable_or_error none "any query" 5 (7/10) (Or.inl rfl)

/-! ## C9 -/

/-- Alignment of the metadata field with the returned documents: absent or
falsy metadata is later padded to the document count, and a present inner
list must be at least as long as the document list. -/
def metaLenOk : Option (List (List Meta)) → Nat → Prop
  | none, _ => True
  | some [], _ => True
  | some (ms :: _), n => n ≤ ms.length

/-- When every distance is the padded `0`, the filter keeps everything (for
a floor at most 1) and every survivor has similarity exactly 1. -/
lemma processLoop_zero_dists (m : Rat) (hm : m ≤ 1) :
    ∀ (docs : List String) (ms : List Meta), docs.length ≤ ms.length →
      ((processLoop m (docs.zip (ms.zip (List.replicate docs.length 0)))).map
          RetrievalResult.content = docs)
      ∧ ∀ r ∈ processLoop m (docs.zip (ms.zip (List.replicate docs.length 0))),
          r.similarity = 1 := by
  intro docs
  induction docs with
  | nil => intro ms _; exact ⟨rfl, fun r hr => absurd hr (List.not_mem_nil r)⟩
  | cons d rest ih =>
    intro ms hlen
    cases ms with
    | nil => simp at hlen
    | cons mm mrest =>
      have hlen' : rest.length ≤ mrest.length := by simpa using hlen
      have hkeep : m ≤ 1 - (0 : Rat) := by simpa using hm
      have hz : (d :: rest).zip ((mm :: mrest).zip (List.replicate (d :: rest).length 0))
          = (d, mm, (0 : Rat)) :: rest.zip (mrest.zip (List.replicate rest.length 0)) := rfl
      rw [hz]
      simp only [processLoop]
      rw [if_pos hkeep]
      refine ⟨?_, ?_⟩
      · rw [List.map_cons, (ih mrest hlen').1]
        rfl
      · intro r hr
        rcases List.mem_cons.mp hr with rfl | hmem
        · show (1 : Rat) - 0 = 1
          ring
        · exact (ih mrest hlen').2 r hmem

/-- C9: if the store's response contains documents but its distances field is
missing or the empty list, every returned document is assigned distance 0,
hence similarity exactly 1, and for any floor `m ≤ 1` all the documents come
back, in order, as maximally similar results. -/
theorem search_kb_missing_distances (col : Collection) (q : String) (n : Nat) (m : Rat)
    (resp : QueryResponse) (docs : List String) (drest : List (List String))
    (hcount : 0 < col.count)
    (hq : col.query q n = Except.ok resp)
    (hdocs : resp.documents = some (docs :: drest))
    (hdist : resp.distances = none ∨ resp.distances = some [])
    (hmeta : metaLenOk resp.metadatas docs.length)
    (hm : m ≤ 1) :
    ((search_knowledge_base (some col) q n m).map RetrievalResult.content = docs)
    ∧ ∀ r ∈ search_knowledge_base (some col) q n m, r.similarity = 1 := by
  obtain ⟨odocs, ometas, odists⟩ := resp
  have hdocs' : odocs = some (docs :: drest) := hdocs
  have hdist' : odists = none ∨ odists = some [] := hdist
  have hmeta' : metaLenOk ometas docs.length := hmeta
  subst hdocs'
  simp only [search_knowledge_base]
  rw [if_pos hcount, hq]
  show ((searchBody ⟨some (docs :: drest), ometas, odists⟩ m).map RetrievalResult.content = docs)
    ∧ ∀ r ∈ searchBody ⟨some (docs :: drest), ometas, odists⟩ m, r.similarity = 1
  cases docs with
  | nil =>
    have hbody : searchBody ⟨some ([] :: drest), ometas, odists⟩ m = [] := rfl
    rw [hbody]
    exact ⟨rfl, fun r hr => absurd hr (List.not_mem_nil r)⟩
  | cons d dtl =>
    have hbody : searchBody ⟨some ((d :: dtl) :: drest), ometas, odists⟩ m
        = processLoop m ((d :: dtl).zip ((match ometas with
            | none => List.replicate (d :: dtl).length emptyMeta
            | some [] => List.replicate (d :: dtl).length emptyMeta
            | some (ms :: _) => ms).zip (List.replicate (d :: dtl).length 0))) := by
      rcases hdist' with rfl | rfl
      · rfl
      · rfl
    rw [hbody]
    match ometas, hmeta' with
    | none, _ =>
      exact processLoop_zero_dists m hm (d :: dtl) (List.replicate (d :: dtl).length emptyMeta)
        (by simp)
    | some [], _ =>
      exact processLoop_zero_dists m hm (d :: dtl) (List.replicate (d :: dtl).length emptyMeta)
        (by simp)
    | some (ms :: _), hmeta =>
      exact processLoop_zero_dists m hm (d :: dtl) ms hmeta

def respC9 : QueryResponse := { documents := some [["x", "y"]], metadatas := none, distances := none }

def colC9 : Collection := { count := 2, query := fun _ _ => Except.ok respC9 }

/-- Closed instance of C9: two documents, no distances field, floor 1/2. -/
theorem search_kb_missing_distances_witness :
    ((search_knowledge_base (some colC9) "q" 5 (1/2)).map RetrievalResult.content = ["x", "y"])
    ∧ ∀ r ∈ search_knowledge_base (some colC9) "q" 5 (1/2), r.similarity = 1 :=
  search_kb_missing_distances colC9 "q" 5 (1/2) respC9 ["x", "y"] [] (by decide) rfl rfl
    (Or.inl rfl) trivial (by norm_num)

/-! Answer Composer: `RAGService.generate_response`, `_prepare_context`,
`_build_system_prompt`, `_build_user_prompt`, `_prepare_sources` and
`_generate_fallback_response`.  The OpenAI chat-completion call is an
external collaborator, a parameter `llm : List Message → Except String
String`. -/

/-- One chat message dictionary `{"role": ..., "content": ...}`. -/
structure Message where
  role : String
  content : String
deriving DecidableEq, Repr

/-- One source-citation dictionary as built by `_prepare_sources`; the
hand-built setup source of the `chat` endpoint carries no similarity key,
hence the optional field. -/
structure Source where
  book : String
  chapter : String
  page : Nat
  text_snippet : String
  similarity : Option Rat
deriving DecidableEq, Repr

/-- Python `round(x, 3)` modelled over the rationals: round to the nearest
multiple of 1/1000. -/
def round3 (q : Rat) : Rat := (round (q * 1000) : Int) / 1000

/-- One entry of `_prepare_context`:
`f"[Source {i}] From '{book}' - {chapter}:\n{content}\n"` with the content
cut to its first 500 characters and the provenance defaulted. -/
def contextEntry (i : Nat) (result : RetrievalResult) : String :=
  "[Source " ++ Nat.repr i ++ "] From \x27"
    ++ result.metadata.book_title.getD "Unknown Book" ++ "\x27 - "
    ++ result.metadata.chapter.getD "Unknown Chapter" ++ ":\n"
    ++ pyTake result.content 500 ++ "\n"

/-- `RAGService._prepare_context`: a fixed sentence when no results exist,
otherwise the numbered entries (from 1) joined by newlines. -/
def prepare_context (results : List RetrievalResult) : String :=
  if results.isEmpty then "No relevant context found in the knowledge base."
  else String.intercalate "\n" ((results.enumFrom 1).map (fun p => contextEntry p.1 p.2))

/-- `RAGService._build_system_prompt`. -/
def build_system_prompt : String :=
  "You are Alex Hormozi AI, a business advisor based on Alex Hormozi\x27s teachings and books. \n\nYour role:\n- Provide practical, actionable business advice\n- Focus on sales, marketing, operations, and scaling strategies\n- Use Alex Hormozi\x27s frameworks and methodologies\n- Be direct, results-oriented, and value-driven\n- Always cite your sources when referencing specific concepts\n\nGuidelines:\n- Answer based ONLY on the provided context from Alex Hormozi\x27s books\n- If the context doesn\x27t contain relevant information, say so honestly\n- Use specific examples and frameworks when available\n- Be conversational but professional\n- Focus on implementation and results\n\nRemember: You\x27re helping entrepreneurs build better businesses using proven strategies."

/-- `RAGService._build_user_prompt`: the instructional template around the
raw query and the assembled context. -/
def build_user_prompt (query context : String) : String :=
  "Based on Alex Hormozi\x27s teachings in the provided context, please answer this question:\n\nQuestion: "
    ++ query
    ++ "\n\nContext from Alex Hormozi\x27s books:\n"
    ++ context
    ++ "\n\nPlease provide a helpful, actionable response based on the context above. If the context doesn\x27t contain enough information to fully answer the question, please say so and provide what guidance you can."

/-- The message list `generate_response` sends to the model: the system
prompt, then (when truthy) the last 6 turns of the caller-supplied history,
then the user prompt built from the query and the prepared context. -/
def build_messages (query : String) (context_results : List RetrievalResult)
    (conversation_history : Option (List Message)) : List Message :=
  let context_text := prepare_context context_results
  let user_prompt := build_user_prompt query context_text
  let messages : List Message := [⟨"system", build_system_prompt⟩]
  let messages := match conversation_history with
    | none => messages
    | some h => if h.isEmpty then messages else messages ++ h.drop (h.length - 6)
  messages ++ [⟨"user", user_prompt⟩]

/-- `RAGService._prepare_sources`: one source dictionary per result, with the
200-character snippet rule and the similarity rounded to 3 decimals. -/
def prepare_sources : List RetrievalResult → List Source
  | [] => []
  | result :: rest =>
    { book := result.metadata.book_title.getD "Unknown"
      chapter := result.metadata.chapter.getD "Unknown"
      page := result.metadata.page_number.getD 0
      text_snippet :=
        if 200 < result.content.length then pyTake result.content 200 ++ "..."
        else result.content
      similarity := some (round3 result.similarity) } :: prepare_sources rest

/-- A Citation as §3 of the spec describes it: the snippet is the first 200
characters of the content followed by an ellipsis exactly when the content is
longer than 200 characters (the full content otherwise), and the similarity
is rounded to 3 decimals. -/
def mkCitation (result : RetrievalResult) : Source :=
  { book := result.metadata.book_title.getD "Unknown"
    chapter := result.metadata.chapter.getD "Unknown"
    page := result.metadata.page_number.getD 0
    text_snippet :=
      if 200 < result.content.length then pyTake result.content 200 ++ "..."
      else result.content
    similarity := some (round3 result.similarity) }

/-- The text before the echoed query in `_generate_fallback_response`. -/
def fallbackPre : String :=
  "I apologize, but I\x27m currently unable to access Alex Hormozi\x27s knowledge base to answer your question about: \""

/-- The text after the echoed query in `_generate_fallback_response`. -/
def fallbackPost : String :=
  "\"\n\nThis could be because:\n1. The knowledge base hasn\x27t been set up yet\n2. There\x27s a temporary technical issue\n3. Your question might need to be rephrased\n\nTo get the best results, try:\n- Being more specific about what aspect of business you\x27re asking about\n- Asking about topics covered in Alex Hormozi\x27s books like offers, lead generation, or scaling\n- Checking back later if this is a technical issue\n\nI\x27m designed to provide business advice based on Alex Hormozi\x27s proven strategies and frameworks."

/-- `RAGService._generate_fallback_response`: the fixed pattern with the
query echoed verbatim. -/
def fallback_response (query : String) : String := fallbackPre ++ query ++ fallbackPost

/-- `RAGService.generate_response`: build the prompt, call the model; on
success pair the generated text with the prepared sources, on any model
error return the fallback text and no sources (the embedding returns a plain
value, so no error can reach the caller). -/
def generate_response (llm : List Message → Except String String) (query : String)
    (context_results : List RetrievalResult)
    (conversation_history : Option (List Message)) : String × List Source :=
  match llm (build_messages query context_results conversation_history) with
  | Except.ok generated_text => (generated_text, prepare_sources context_results)
  | Except.error _ => (fallback_response query, [])

/-! ## C8 -/

/-- C8: the citation assembly emits exactly one citation per retrieval
result, in order, each with the 200-character-plus-ellipsis snippet rule
(independent of the 500-character context preview) and the similarity
rounded to 3 decimals. -/
theorem prepare_sources_citations (results : List RetrievalResult) :
    prepare_sources results = results.map mkCitation := by
  induction results with
  | nil => rfl
  | cons result rest ih =>
    simp only [prepare_sources, List.map_cons, ih]
    rfl

/-! ## C4 -/

/-- C4: when the model call fails with any error, `generate_response`
returns exactly the fallback pattern with the original query embedded
verbatim between the fixed pieces, together with an empty citation list; no
error is propagated. -/
theorem generate_response_fallback (llm : List Message → Except String String)
    (query : String) (context_results : List RetrievalResult)
    (conversation_history : Option (List Message)) (e : String)
    (h : llm (build_messages query context_results conversation_history) = Except.error e) :
    generate_response llm query context_results conversation_history
      = (fallbackPre ++ query ++ fallbackPost, []) := by
  unfold generate_response
  rw [h]
  rfl

/-- Closed instance of C4 with an always-failing model gateway. -/
theorem generate_response_fallback_witness :
    generate_response (fun _ => Except.error "boom") "What is LTV?" [] none
      = (fallbackPre ++ "What is LTV?" ++ fallbackPost, []) :=
  generate_response_fallback (fun _ => Except.error "boom") "What is LTV?" [] none "boom" rfl

/-! Chat endpoint: `chat` of `backend/app/main.py`, instrumented with an
explicit trace of the external calls it issues (the store query inside
`search_knowledge_base` and the model call inside `generate_response`). -/

/-- An external call observable at the service boundary. -/
inductive ExtCall where
  | storeQuery : String → Nat → ExtCall
  | llmCall : List Message → ExtCall
deriving DecidableEq, Repr

/-- The environment of the endpoint: the ChromaDB collection, the OpenAI
client, and Python's process-seeded string hash (used only for conversation
ids). -/
structure Env where
  collection : Option Collection
  llm : List Message → Except String String
  hashF : String → Nat

/-- The response model of the endpoint. -/
structure ChatResponse where
  response : String
  sources : List Source
  conversation_id : String
deriving Repr

/-- Python `a or b` on an optional string: `None` and `""` are falsy. -/
def pyOrStr (o : Option String) (d : String) : String :=
  match o with
  | none => d
  | some s => if s.isEmpty then d else s

/-- The knowledge-base-unavailable message of the `chat` endpoint. -/
def kbUnavailableMessage : String :=
  "I\x27m sorry, but the knowledge base is not currently available. Please make sure the Alex Hormozi books have been processed and the vector database has been created. You can do this by running the training pipeline with your OpenAI API key."

/-- The hand-built source of the knowledge-base-unavailable response (it has
no similarity key). -/
def setupSource : Source :=
  { book := "System"
    chapter := "Setup Required"
    page := 0
    text_snippet := "Knowledge base needs to be initialized. Please run: python scripts/run_pipeline.py --books_dir backend/data/raw --output_dir backend/data/chroma"
    similarity := none }

/-- `search_knowledge_base` with its store call made observable: when the
knowledge base is available the collection is queried exactly once (whether
or not the call then succeeds); otherwise no external call is made. -/
def search_kb_tr (collection : Option Collection) (query : String) (n_results : Nat)
    (min_similarity : Rat) : List RetrievalResult × List ExtCall :=
  if is_kb_available collection then
    (search_knowledge_base collection query n_results min_similarity,
      [ExtCall.storeQuery query n_results])
  else ([], [])

/-- The traced version returns the untraced result. -/
lemma search_kb_tr_fst (collection : Option Collection) (q : String) (n : Nat) (m : Rat) :
    (search_kb_tr collection q n m).1 = search_knowledge_base collection q n m := by
  cases collection with
  | none => rfl
  | some col =>
    unfold search_kb_tr
    by_cases h : is_kb_available (some col) = true
    · rw [if_pos h]
    · rw [if_neg h]
      have hzero : ¬ 0 < col.count := by
        simpa [is_kb_available] using h
      simp [search_knowledge_base, hzero]

/-- `generate_response` with its model call made observable: the call is
attempted on every invocation. -/
def generate_response_tr (llm : List Message → Except String String) (query : String)
    (context_results : List RetrievalResult)
    (conversation_history : Option (List Message)) :
    (String × List Source) × List ExtCall :=
  (generate_response llm query context_results conversation_history,
    [ExtCall.llmCall (build_messages query context_results conversation_history)])

/-- The `chat` endpoint of `backend/app/main.py`: the only guard before the
search and generation calls is knowledge-base availability; the message text
itself is never inspected.  Search uses `n_results=5, min_similarity=0.6`. -/
def chat (env : Env) (message : String) (conversation_id : Option String) :
    ChatResponse × List ExtCall :=
  if is_kb_available env.collection then
    let sr := search_kb_tr env.collection message 5 (3/5)
    let gr := generate_response_tr env.llm message sr.1 none
    ({ response := gr.1.1
       sources := gr.1.2
       conversation_id := pyOrStr conversation_id
         ("chat_" ++ Nat.repr (env.hashF message % 10000)) },
      sr.2 ++ gr.2)
  else
    ({ response := kbUnavailableMessage
       sources := [setupSource]
       conversation_id := pyOrStr conversation_id "setup_required" }, [])

/-! ## C6 -/

def respC6 : QueryResponse :=
  { documents := some [["doc"]], metadatas := none, distances := none }

def envC6 : Env :=
  { collection := some { count := 1, query := fun _ _ => Except.ok respC6 }
    llm := fun _ => Except.ok "answer"
    hashF := fun _ => 0 }

/-- C6 counterexample: with an available knowledge base, the empty query is
not rejected — the very first thing the pipeline does with it is an external
store query carrying the blank text. -/
theorem chat_blank_query_counterexample :
    (chat envC6 "" none).2.head? = some (ExtCall.storeQuery "" 5) := rfl

/-- C6 (amended): the pipeline applies no blank-query check; the only guard
before the external calls is knowledge-base availability.  When the
knowledge base is unavailable no external call is made; when it is
available, any query — including the empty one — is sent to the vector
store and then to the generation model. -/
theorem chat_blank_query_not_rejected (env : Env) (cid : Option String) (query : String) :
    (is_kb_available env.collection = false → (chat env query cid).2 = [])
    ∧ (is_kb_available env.collection = true →
        (chat env query cid).2
          = [ExtCall.storeQuery query 5,
              ExtCall.llmCall (build_messages query
                (search_knowledge_base env.collection query 5 (3/5)) none)]) := by
  constructor
  · intro h
    simp [chat, h]
  · intro h
    simp [chat, search_kb_tr, generate_response_tr, h]

/-- Closed instance of the amended C6 theorem: the full external-call trace
of the empty query against an available knowledge base. -/
theorem chat_blank_query_not_rejected_witness :
    (chat envC6 "" none).2
      = [ExtCall.storeQuery "" 5,
          ExtCall.llmCall (build_messages ""
            (search_knowledge_base envC6.collection "" 5 (3/5)) none)] :=
  (chat_blank_query_not_rejected envC6 none "").2 rfl

end Hormozi
